import Mathlib

/-!
Verification development for the Bar_char_withErrorbars_converter repository.

Embedding conventions.
Python floats are modelled as exact rationals (ℚ); Python `round(x, k)` is
modelled as round-half-to-even on the exact rational value (Python's rounding
rule), scaled by `10^k`.  `math.sqrt(sample_size)` is irrational in general, so
every function that calls it receives the square root as an explicit argument
`s : ℚ` (standing for the real value `√n`); theorems quantify over `s` under
the hypotheses that the real square root satisfies (for example `1 ≤ s` when
`1 ≤ n`).  The group comparator applies `math.sqrt` to data-dependent
expressions, so it is parameterised by an abstract total function
`sqrt : ℚ → ℚ`; the claims proved about it hold for every such function
(sometimes under the hypothesis `sqrt 0 = 0`, which the real square root
satisfies).  A Python statement that can raise `ZeroDivisionError` is modelled
by a guarded division returning `Except`; a `try/except` handler that converts
an exception into a returned value is modelled by the corresponding branch.
Presentation-only fields (the `conversion_formula` f-string of
statistical_engine.py) are not modelled; no claim mentions them.
-/

/-- Round-half-to-even of a rational to an integer (the rounding rule of
Python `round`). -/
def rhe (x : ℚ) : ℤ :=
  if x - ⌊x⌋ < 1/2 then ⌊x⌋
  else if 1/2 < x - ⌊x⌋ then ⌊x⌋ + 1
  else if ⌊x⌋ % 2 = 0 then ⌊x⌋ else ⌊x⌋ + 1

/-- Python `round(x, 6)` on the exact rational value. -/
def round6 (x : ℚ) : ℚ := (rhe (x * 1000000) : ℚ) / 1000000

/-- Python `round(x, 4)` on the exact rational value. -/
def round4 (x : ℚ) : ℚ := (rhe (x * 10000) : ℚ) / 10000

/- String constants of the source (type labels, method names, warning and
interpretation messages), named so that no string literal ever directly
follows an identifier in the development. -/

def tSD : String := "SD"

def tSE : String := "SE"

def tCI95 : String := "CI95"

def tCI99 : String := "CI99"

def t2SE : String := "2SE"

def tASYMMETRIC : String := "ASYMMETRIC"

def tUNKNOWN : String := "UNKNOWN"

def tSEM : String := "SEM"

def tSTD : String := "STD"

def tSTDERR : String := "STDERR"

def tASYM : String := "ASYM"

def tASYMM : String := "ASYMM"

def mDirectSd : String := "direct_sd"

def mSeToSd : String := "se_to_sd"

def mCi95ToSd : String := "ci95_to_sd"

def mCi99ToSd : String := "ci99_to_sd"

def m2seToSd : String := "2se_to_sd"

def mUnknown : String := "unknown"

def wSdPositive : String := "标准差必须大于0"

def wSePositive : String := "标准误差必须大于0"

def wSeSdInconsistent : String := "SE和SD的关系可能不一致"

def wCvLarge : String := "变异系数过大，可能存在异常值"

def wCvMedium : String := "变异系数较大，数据变异性高"

def wSmallSample : String := "样本量较小，结果可靠性有限"

def qaGood : String := "good"

def qaFair : String := "fair"

def qaPoor : String := "poor"

def iSigHigher : String := "显著差异：组1显著高于组2"

def iSigLower : String := "显著差异：组1显著低于组2"

def iSigSpansZero : String := "显著差异：但置信区间包含0"

def iNotSignificant : String := "无显著差异"

/-- Result dictionary of `StatisticalEngine.convert_to_mean_sd`
(statistical_engine.py).  The `conversion_formula` presentation string is not
modelled.  The metadata fields added by `convert_to_mean_sd` after the
per-type conversion carry defaults so that the per-type helpers can fill only
the statistical fields, exactly as the Python helpers return a dict that
`convert_to_mean_sd` then updates. -/
structure ConversionResult where
  mean : ℚ
  sd : ℚ
  se : ℚ
  conversion_factor : ℚ
  quality_score : ℚ
  asymmetric_approximation : Bool := false
  original_mean : ℚ := 0
  original_error_bar : ℚ := 0
  original_error_type : String := ""
  sample_size : ℤ := 0
  method_used : String := ""
deriving DecidableEq, Repr, Inhabited

/-- Error raised by `convert_to_mean_sd` (a Python `ValueError` whose message
carries the offending type string). -/
inductive ConvError where
  | unsupportedType (t : String)
deriving DecidableEq, Repr

/-- Keys of `StatisticalEngine.conversion_methods`. -/
def convKeys : List String := [tSD, tSE, tCI95, tCI99, t2SE, tASYMMETRIC]

/-- `StatisticalEngine._get_method_name`. -/
def get_method_name (ty : String) : String :=
  if ty = tSD then mDirectSd
  else if ty = tSE then mSeToSd
  else if ty = tCI95 then mCi95ToSd
  else if ty = tCI99 then mCi99ToSd
  else if ty = t2SE then m2seToSd
  else mUnknown

/-- `StatisticalEngine._convert_from_sd`; `s` stands for
`math.sqrt(sample_size)`. -/
def convert_from_sd (mean sd : ℚ) (s : ℚ) : ConversionResult :=
  { mean := round6 mean, sd := round6 sd, se := round6 (sd / s),
    conversion_factor := 1, quality_score := 1 }

/-- `StatisticalEngine._convert_from_se`. -/
def convert_from_se (mean se : ℚ) (s : ℚ) : ConversionResult :=
  { mean := round6 mean, sd := round6 (se * s), se := round6 se,
    conversion_factor := round6 s, quality_score := 0.95 }

/-- `StatisticalEngine._convert_from_ci95`. -/
def convert_from_ci95 (mean ci_half_width : ℚ) (s : ℚ) : ConversionResult :=
  { mean := round6 mean, sd := round6 (ci_half_width / 1.96 * s),
    se := round6 (ci_half_width / 1.96),
    conversion_factor := round6 (s / 1.96), quality_score := 0.85 }

/-- `StatisticalEngine._convert_from_ci99`. -/
def convert_from_ci99 (mean ci_half_width : ℚ) (s : ℚ) : ConversionResult :=
  { mean := round6 mean, sd := round6 (ci_half_width / 2.576 * s),
    se := round6 (ci_half_width / 2.576),
    conversion_factor := round6 (s / 2.576), quality_score := 0.85 }

/-- `StatisticalEngine._convert_from_2se`. -/
def convert_from_2se (mean two_se : ℚ) (s : ℚ) : ConversionResult :=
  { mean := round6 mean, sd := round6 (two_se / 2 * s),
    se := round6 (two_se / 2),
    conversion_factor := round6 (s / 2), quality_score := 0.90 }

/-- `StatisticalEngine._convert_from_asymmetric`. -/
def convert_from_asymmetric (mean error_bar : ℚ) (s : ℚ) : ConversionResult :=
  { mean := round6 mean, sd := round6 (error_bar * s), se := round6 error_bar,
    conversion_factor := round6 s, quality_score := 0.75,
    asymmetric_approximation := true }

/-- `StatisticalEngine.convert_to_mean_sd`: dispatch on the type key, then add
the metadata fields. -/
def convert_to_mean_sd (mean error_bar : ℚ) (error_type : String) (n : ℤ)
    (s : ℚ) : Except ConvError ConversionResult :=
  if error_type ∈ convKeys then
    let base :=
      if error_type = tSD then convert_from_sd mean error_bar s
      else if error_type = tSE then convert_from_se mean error_bar s
      else if error_type = tCI95 then convert_from_ci95 mean error_bar s
      else if error_type = tCI99 then convert_from_ci99 mean error_bar s
      else if error_type = t2SE then convert_from_2se mean error_bar s
      else convert_from_asymmetric mean error_bar s
    Except.ok { base with original_mean := mean, original_error_bar := error_bar,
                          original_error_type := error_type, sample_size := n,
                          method_used := get_method_name error_type }
  else Except.error (ConvError.unsupportedType error_type)

/-- Result of `StatisticalEngine.validate_conversion_result`. -/
structure Validation where
  is_valid : Bool
  warnings : List String
  quality_assessment : String
deriving DecidableEq, Repr

/-- Coefficient-of-variation warnings of
`StatisticalEngine.validate_conversion_result` (the branch guarded by
`mean != 0`). -/
def cv_warnings (r : ConversionResult) : List String :=
  if r.mean ≠ 0 ∧ 2 < |r.sd / r.mean| then [wCvLarge]
  else if r.mean ≠ 0 ∧ 1 < |r.sd / r.mean| then [wCvMedium]
  else []

/-- Coefficient-of-variation quality tier of
`StatisticalEngine.validate_conversion_result`. -/
def cv_quality (r : ConversionResult) : String :=
  if r.mean ≠ 0 ∧ 2 < |r.sd / r.mean| then qaPoor
  else if r.mean ≠ 0 ∧ 1 < |r.sd / r.mean| then qaFair
  else qaGood

/-- `StatisticalEngine.validate_conversion_result`; `s` stands for
`math.sqrt(result.sample_size)` (only read when the sample size is
positive).  `is_valid` is set to false exactly by the two positivity checks;
the warnings accumulate in source order. -/
def validate_conversion_result (r : ConversionResult) (s : ℚ) : Validation :=
  { is_valid := !(decide (r.sd ≤ 0)) && !(decide (r.se ≤ 0)),
    warnings :=
      (if r.sd ≤ 0 then [wSdPositive] else []) ++
      (if r.se ≤ 0 then [wSePositive] else []) ++
      (if 0.001 < |r.se - (if 0 < r.sample_size then r.sd / s else 0)| then
        [wSeSdInconsistent] else []) ++
      cv_warnings r ++
      (if r.sample_size < 10 then [wSmallSample] else []),
    quality_assessment :=
      if r.sample_size < 10 then
        (if cv_quality r = qaGood then qaFair else cv_quality r)
      else cv_quality r }

/-- Row of the conversion formula table.  Modelled from the spec: one row per
recognized type, giving the raw (pre-rounding) SE, SD, the multiplier from the
raw error-bar value to SD, the quality score, and the approximation flag. -/
structure SpecRow where
  se : ℚ
  sd : ℚ
  factor : ℚ
  quality : ℚ
  asym : Bool
deriving DecidableEq, Repr

/-- Formula table of the spec (section 4.2), written from the words of the
spec: SD is the identity on SD, SE multiplies by `√n`, CI95/CI99 divide by the
z-score then multiply by `√n`, 2SE halves then multiplies by `√n`, ASYMMETRIC
treats the value as SE.  `s` stands for `√n`. -/
def specFormulaTable (ty : String) (error_bar s : ℚ) : Option SpecRow :=
  if ty = tSD then
    some { se := error_bar / s, sd := error_bar, factor := 1, quality := 1,
           asym := false }
  else if ty = tSE then
    some { se := error_bar, sd := error_bar * s, factor := s, quality := 0.95,
           asym := false }
  else if ty = tCI95 then
    some { se := error_bar / 1.96, sd := error_bar / 1.96 * s,
           factor := s / 1.96, quality := 0.85, asym := false }
  else if ty = tCI99 then
    some { se := error_bar / 2.576, sd := error_bar / 2.576 * s,
           factor := s / 2.576, quality := 0.85, asym := false }
  else if ty = t2SE then
    some { se := error_bar / 2, sd := error_bar / 2 * s, factor := s / 2,
           quality := 0.90, asym := false }
  else if ty = tASYMMETRIC then
    some { se := error_bar, sd := error_bar * s, factor := s, quality := 0.75,
           asym := true }
  else none

/- ===== ErrorBarDetector (error_detector.py) ===== -/

/-- Keys of `ErrorBarDetector.supported_types` (the membership test of
`detect_error_type` uses the keys, aliases included). -/
def detectorSupported : List String :=
  [tSE, tSD, tCI95, tCI99, t2SE, tASYMMETRIC, tSEM, tSTD, tSTDERR]

/-- Alias resolution of `ErrorBarDetector.type_mapping` (lookup with the
identity as default). -/
def typeMappingGet (u : String) : String :=
  if u = tSEM then tSE
  else if u = tSTD then tSD
  else if u = tSTDERR then tSE
  else if u = tASYM then tASYMMETRIC
  else if u = tASYMM then tASYMMETRIC
  else u

/-- Python `str.upper` (per-character uppercase). -/
def pyUpper (s : String) : String := String.mk (s.data.map Char.toUpper)

/-- Python `str.strip` (drop whitespace from both ends). -/
def pyStrip (s : String) : String :=
  String.mk (((s.data.dropWhile Char.isWhitespace).reverse.dropWhile
    Char.isWhitespace).reverse)

/-- `ErrorBarDetector._normalize_type`: empty string maps to UNKNOWN,
otherwise uppercase, strip, and resolve aliases. -/
def normalize_type (declared : String) : String :=
  if declared = "" then tUNKNOWN
  else typeMappingGet (pyStrip (pyUpper declared))

/-- `ErrorBarDetector._validate_declared_type`; `s` stands for
`math.sqrt(sample_size)` (only reached with a positive sample size, so the
try/except of the source is dead there). -/
def validate_declared_type (mean error_bar : ℚ) (declared_type : String)
    (sample_size : ℤ) (s : ℚ) : ℚ :=
  if error_bar ≤ 0 ∨ sample_size ≤ 0 then 0
  else if |mean| * 3 < error_bar then 0.3
  else if declared_type = tSD then
    if 0 < error_bar / s ∧ error_bar / s < error_bar then 0.9 else 0.6
  else if declared_type = tSE then
    if error_bar < error_bar * s ∧ error_bar * s < |mean| * 2 then 0.9 else 0.6
  else if declared_type = tCI95 then
    if 0 < error_bar / 1.96 * s ∧ error_bar / 1.96 * s < |mean| * 2
    then 0.8 else 0.5
  else if declared_type = tCI99 then
    if 0 < error_bar / 2.576 * s ∧ error_bar / 2.576 * s < |mean| * 2
    then 0.8 else 0.5
  else if declared_type = t2SE then
    if 0 < error_bar / 2 * s ∧ error_bar / 2 * s < |mean| * 2
    then 0.8 else 0.5
  else 0.7

/-- `ErrorBarDetector._score_sd_assumption`. -/
def score_sd_assumption (mean sd se : ℚ) : ℚ :=
  let score1 : ℚ := 0.5
  let score2 := score1 + (if se < sd then 0.2 else 0)
  let score3 := score2 +
    (if sd < |mean| * 1.5 then 0.2 else if sd < |mean| * 2 then 0.1 else 0)
  let score4 := score3 +
    (if mean ≠ 0 ∧ 0.1 ≤ |sd / mean| ∧ |sd / mean| ≤ 1 then 0.1 else 0)
  min score4 1

/-- `ErrorBarDetector._score_se_assumption`. -/
def score_se_assumption (mean se sd : ℚ) : ℚ :=
  let score1 : ℚ := 0.5
  let score2 := score1 + (if se < sd then 0.2 else 0)
  let score3 := score2 +
    (if se < |mean| * 0.5 then 0.2 else if se < |mean| then 0.1 else 0)
  let score4 := score3 +
    (if mean ≠ 0 ∧ 0.1 ≤ |sd / mean| ∧ |sd / mean| ≤ 1 then 0.1 else 0)
  min score4 1

/-- `ErrorBarDetector._score_ci_assumption`. -/
def score_ci_assumption (mean ci_half_width se sd : ℚ) : ℚ :=
  let score1 : ℚ := 0.4
  let score2 := score1 +
    (if se < ci_half_width ∧ ci_half_width < |mean| then 0.3
     else if ci_half_width < |mean| * 1.5 then 0.2 else 0)
  let score3 := score2 +
    (if mean ≠ 0 ∧ 0.1 ≤ |sd / mean| ∧ |sd / mean| ≤ 1 then 0.2 else 0)
  min score3 0.8

/-- Python `max(candidates, key=...)`: first element of maximal score wins
ties. -/
def bestCandidate (l : List (String × ℚ)) : String × ℚ :=
  match l with
  | [] => (tUNKNOWN, 0)
  | x :: xs => xs.foldl (fun acc c => if acc.2 < c.2 then c else acc) x

/-- `ErrorBarDetector._auto_detect_type`.  The first branch models the
`except (ValueError, ZeroDivisionError)` handler of the source: with a
positive error bar and a non-positive sample size, `math.sqrt` raises (or the
division by `math.sqrt(0)` does) and the handler returns `(UNKNOWN, 0.0)`.
With `error_bar ≤ 0` no candidate is appended and Python
`max` is never reached, so the empty-candidates fallback returns
`(UNKNOWN, 0.0)`. -/
def auto_detect_type (mean error_bar : ℚ) (sample_size : ℤ) (s : ℚ) :
    String × ℚ :=
  if 0 < error_bar ∧ sample_size ≤ 0 then (tUNKNOWN, 0)
  else
    bestCandidate
      (if 0 < error_bar then
        [(tSD, score_sd_assumption mean error_bar (error_bar / s)),
         (tSE, score_se_assumption mean error_bar (error_bar * s)),
         (tCI95, score_ci_assumption mean error_bar (error_bar / 1.96)
            (error_bar / 1.96 * s)),
         (tCI99, score_ci_assumption mean error_bar (error_bar / 2.576)
            (error_bar / 2.576 * s)),
         (t2SE, score_se_assumption mean (error_bar / 2) (error_bar / 2 * s))]
       else [])

/-- `ErrorBarDetector.detect_error_type`.  `mean`, `error_bar` and
`sample_size` are `Option`s (Python `None` checks); `s` stands for
`math.sqrt(sample_size)`. -/
def detect_error_type (mean error_bar : Option ℚ) (declared_type : String)
    (sample_size : Option ℤ) (s : ℚ) : String × ℚ :=
  match mean, error_bar, sample_size with
  | some m, some e, some n =>
    let nd := normalize_type declared_type
    let vconf := validate_declared_type m e nd n s
    if nd ∈ detectorSupported ∧ 1/2 < vconf then (nd, vconf)
    else
      let ad := auto_detect_type m e n s
      if ad.2 < 0.7 ∧ nd ∈ detectorSupported then (nd, 0.6) else ad
  | _, _, _ => (tUNKNOWN, 0)

/- ===== GroupComparator (bar_converter.py) ===== -/

/-- Error raised inside `_calculate_group_comparison` (a Python
`ZeroDivisionError`). -/
inductive CompErr where
  | divisionByZero
deriving DecidableEq, Repr

/-- Division as Python performs it: raises on a zero denominator. -/
def pydiv (a b : ℚ) : Except CompErr ℚ :=
  if b = 0 then Except.error CompErr.divisionByZero else Except.ok (a / b)

/-- `BarChartConverter._get_z_score`: fixed lookup with default 1.96. -/
def get_z_score (confidence_level : ℚ) : ℚ :=
  if confidence_level = 0.90 then 1.645
  else if confidence_level = 0.95 then 1.96
  else if confidence_level = 0.99 then 2.576
  else 1.96

/-- `BarChartConverter._calculate_p_value`: coarse bucketed two-tailed
p-value. -/
def calculate_p_value (t_stat : ℚ) (df : ℤ) : ℚ :=
  if df ≤ 0 then 1
  else if t_stat = 0 then 1
  else if 4 < t_stat then 0.0001
  else if 3 < t_stat then 0.01
  else if 2 < t_stat then 0.05
  else if 3/2 < t_stat then 0.1
  else 0.2

/-- `BarChartConverter._interpret_comparison`. -/
def interpret_comparison (_delta_mean ci_lower ci_upper : ℚ)
    (significant : Bool) : String :=
  if significant then
    if 0 < ci_lower then iSigHigher
    else if ci_upper < 0 then iSigLower
    else iSigSpansZero
  else iNotSignificant

/-- Result dictionary of `BarChartConverter._calculate_group_comparison`. -/
structure ComparisonResult where
  delta_mean : ℚ
  sd_diff : ℚ
  ci_lower : ℚ
  ci_upper : ℚ
  confidence_level : ℚ
  cohens_d : ℚ
  hedges_g : ℚ
  p_value : ℚ
  significant : Bool
  t_statistic : ℚ
  degrees_of_freedom : ℤ
  interpretation : String
deriving DecidableEq, Repr, Inhabited

/-- `BarChartConverter._calculate_group_comparison`, parameterised by an
abstract total square-root function (`math.sqrt` is applied to expressions
that are nonnegative whenever the sample sizes are positive, so it cannot
raise there; every division that Python performs unguarded is `pydiv`). -/
def calculate_group_comparison (sqrt : ℚ → ℚ) (g1 g2 : ConversionResult)
    (confidence_level : ℚ) : Except CompErr ComparisonResult := do
  let delta_mean := g1.mean - g2.mean
  let v1 ← pydiv (g1.sd ^ 2) (g1.sample_size : ℚ)
  let v2 ← pydiv (g2.sd ^ 2) (g2.sample_size : ℚ)
  let sd_diff := sqrt (v1 + v2)
  let z := get_z_score confidence_level
  let ci_lower := delta_mean - z * sd_diff
  let ci_upper := delta_mean + z * sd_diff
  let pooledArg ← pydiv
    (((g1.sample_size : ℚ) - 1) * g1.sd ^ 2 +
     ((g2.sample_size : ℚ) - 1) * g2.sd ^ 2)
    ((g1.sample_size : ℚ) + (g2.sample_size : ℚ) - 2)
  let pooled_sd := sqrt pooledArg
  let cohens_d := if 0 < pooled_sd then delta_mean / pooled_sd else 0
  let corr ← pydiv 3 (4 * ((g1.sample_size : ℚ) + (g2.sample_size : ℚ)) - 9)
  let correction_factor := 1 - corr
  let hedges_g := cohens_d * correction_factor
  let df := g1.sample_size + g2.sample_size - 2
  let t_stat := if 0 < sd_diff then delta_mean / sd_diff else 0
  let p_value := calculate_p_value |t_stat| df
  let alpha := 1 - confidence_level
  let significant := decide (p_value < alpha)
  Except.ok
    { delta_mean := round4 delta_mean, sd_diff := round4 sd_diff,
      ci_lower := round4 ci_lower, ci_upper := round4 ci_upper,
      confidence_level := confidence_level, cohens_d := round4 cohens_d,
      hedges_g := round4 hedges_g, p_value := round4 p_value,
      significant := significant, t_statistic := round4 t_stat,
      degrees_of_freedom := df,
      interpretation :=
        interpret_comparison delta_mean ci_lower ci_upper significant }

/- ===== General lemmas about the embedding ===== -/

theorem except_ok_bind {α β ε : Type} (v : α) (f : α → Except ε β) :
    (Except.ok (ε := ε) v >>= f) = f v := rfl

theorem except_error_bind {α β ε : Type} (e : ε) (f : α → Except ε β) :
    (Except.error (α := α) e >>= f) = Except.error (α := β) e := rfl

theorem except_eq_ok_of_isOk {ε α : Type} [Inhabited α] (e : Except ε α)
    (h : e.isOk = true) : e = Except.ok (e.toOption.getD default) := by
  cases e with
  | error _ => exact absurd h (by simp [Except.isOk, Except.toBool])
  | ok v => rfl

theorem pydiv_ok (a b : ℚ) (h : b ≠ 0) : pydiv a b = Except.ok (a / b) := by
  unfold pydiv; rw [if_neg h]

theorem pydiv_err (a b : ℚ) (h : b = 0) :
    pydiv a b = Except.error CompErr.divisionByZero := by
  unfold pydiv; rw [if_pos h]

theorem rhe_intCast (n : ℤ) : rhe ((n : ℚ)) = n := by
  unfold rhe
  rw [Int.floor_intCast, sub_self]
  norm_num

theorem rhe_neg (x : ℚ) : rhe (-x) = -(rhe x) := by
  have hfl : (⌊x⌋ : ℚ) ≤ x := Int.floor_le x
  have hfu : x < ⌊x⌋ + 1 := Int.lt_floor_add_one x
  by_cases hint : x = (⌊x⌋ : ℚ)
  · have h1 : ⌊-x⌋ = -⌊x⌋ := by
      conv_lhs => rw [hint]
      rw [← Int.cast_neg, Int.floor_intCast]
    unfold rhe
    rw [h1,
        show -x - ((-⌊x⌋ : ℤ) : ℚ) = -(x - (⌊x⌋ : ℚ)) by push_cast; ring,
        sub_eq_zero_of_eq hint]
    norm_num
  · have hlt : (⌊x⌋ : ℚ) < x := lt_of_le_of_ne hfl (fun h => hint h.symm)
    have h1 : ⌊-x⌋ = -⌊x⌋ - 1 := by
      rw [Int.floor_eq_iff]
      constructor
      · push_cast; linarith
      · push_cast; linarith
    unfold rhe
    rw [h1,
        show -x - ((-⌊x⌋ - 1 : ℤ) : ℚ) = 1 - (x - (⌊x⌋ : ℚ)) by push_cast; ring]
    rcases lt_trichotomy (x - (⌊x⌋ : ℚ)) (1/2) with hc | hc | hc
    · rw [if_neg (by linarith), if_pos (by linarith), if_pos hc]
      omega
    · rw [if_neg (show ¬(1 - (x - (⌊x⌋ : ℚ)) < 1/2) by linarith),
          if_neg (show ¬((1:ℚ)/2 < 1 - (x - (⌊x⌋ : ℚ))) by linarith),
          if_neg (show ¬(x - (⌊x⌋ : ℚ) < 1/2) by linarith),
          if_neg (show ¬((1:ℚ)/2 < x - (⌊x⌋ : ℚ)) by linarith)]
      split_ifs <;> omega
    · rw [if_pos (by linarith), if_neg (by linarith), if_pos hc]
      omega

theorem abs_rhe_sub_le (x : ℚ) : |(rhe x : ℚ) - x| ≤ 1/2 := by
  have h0 : (⌊x⌋ : ℚ) ≤ x := Int.floor_le x
  have h1 : x < ⌊x⌋ + 1 := Int.lt_floor_add_one x
  unfold rhe
  split_ifs with ha hb hc
  · rw [abs_sub_comm, abs_of_nonneg (by linarith)]
    linarith
  · push_cast
    rw [abs_of_nonneg (by linarith)]
    linarith
  · rw [abs_sub_comm, abs_of_nonneg (by linarith)]
    linarith
  · push_cast
    rw [abs_of_nonneg (by linarith)]
    linarith

theorem round4_neg (x : ℚ) : round4 (-x) = -(round4 x) := by
  unfold round4
  rw [show -x * 10000 = -(x * 10000) by ring, rhe_neg]
  push_cast
  ring

theorem round4_zero : round4 0 = 0 := by
  unfold round4
  rw [show (0 : ℚ) * 10000 = ((0 : ℤ) : ℚ) by norm_num, rhe_intCast]
  norm_num

theorem round4_one : round4 1 = 1 := by
  unfold round4
  rw [show (1 : ℚ) * 10000 = ((10000 : ℤ) : ℚ) by norm_num, rhe_intCast]
  norm_num

theorem round6_one : round6 1 = 1 := by
  unfold round6
  rw [show (1 : ℚ) * 1000000 = ((1000000 : ℤ) : ℚ) by norm_num, rhe_intCast]
  norm_num

theorem round6_close (x : ℚ) : |round6 x - x| ≤ 1/2000000 := by
  have h := abs_rhe_sub_le (x * 1000000)
  unfold round6
  rw [show (rhe (x * 1000000) : ℚ) / 1000000 - x =
        ((rhe (x * 1000000) : ℚ) - x * 1000000) / 1000000 by ring,
      abs_div, abs_of_pos (by norm_num : (0:ℚ) < 1000000)]
  linarith

theorem round6_ratio_close (sd_raw s : ℚ) (hs : 1 ≤ s) :
    |round6 (sd_raw / s) - round6 sd_raw / s| ≤ 0.001 := by
  have hspos : 0 < s := by linarith
  have h1 := round6_close (sd_raw / s)
  have h2 := round6_close sd_raw
  have key : round6 (sd_raw / s) - round6 sd_raw / s =
      (round6 (sd_raw / s) - sd_raw / s) - (round6 sd_raw - sd_raw) / s := by
    field_simp
  rw [key]
  have h3 : |(round6 sd_raw - sd_raw) / s| ≤ 1/2000000 := by
    rw [abs_div, abs_of_pos hspos]
    have hle : |round6 sd_raw - sd_raw| / s ≤ |round6 sd_raw - sd_raw| :=
      div_le_self (abs_nonneg _) hs
    linarith
  calc |(round6 (sd_raw / s) - sd_raw / s) - (round6 sd_raw - sd_raw) / s|
      = |(round6 (sd_raw / s) - sd_raw / s) + -((round6 sd_raw - sd_raw) / s)| := by
        rw [sub_eq_add_neg]
    _ ≤ |round6 (sd_raw / s) - sd_raw / s| + |-((round6 sd_raw - sd_raw) / s)| :=
        abs_add _ _
    _ = |round6 (sd_raw / s) - sd_raw / s| + |(round6 sd_raw - sd_raw) / s| := by
        rw [abs_neg]
    _ ≤ 1/2000000 + 1/2000000 := by linarith
    _ ≤ 0.001 := by norm_num

/-- Shared helper: the comparator succeeds whenever both sample sizes are
positive and the total sample size exceeds 2 (so no denominator vanishes). -/
theorem compare_isOk_aux (sqrt : ℚ → ℚ) (a b : ConversionResult) (cl : ℚ)
    (ha : 0 < a.sample_size) (hb : 0 < b.sample_size)
    (hdf : 2 < a.sample_size + b.sample_size) :
    (calculate_group_comparison sqrt a b cl).isOk = true := by
  have h1 : ((a.sample_size : ℚ)) ≠ 0 := by
    exact_mod_cast Int.ne_of_gt ha
  have h2 : ((b.sample_size : ℚ)) ≠ 0 := by
    exact_mod_cast Int.ne_of_gt hb
  have hq : (2 : ℚ) < (a.sample_size : ℚ) + (b.sample_size : ℚ) := by
    exact_mod_cast hdf
  have hq3 : (3 : ℚ) ≤ (a.sample_size : ℚ) + (b.sample_size : ℚ) := by
    exact_mod_cast (by omega : (3:ℤ) ≤ a.sample_size + b.sample_size)
  have h3 : ((a.sample_size : ℚ) + (b.sample_size : ℚ) - 2) ≠ 0 := by linarith
  have h4 : (4 * ((a.sample_size : ℚ) + (b.sample_size : ℚ)) - 9) ≠ 0 := by
    linarith
  unfold calculate_group_comparison
  rw [pydiv_ok _ _ h1, except_ok_bind, pydiv_ok _ _ h2, except_ok_bind,
      pydiv_ok _ _ h3, except_ok_bind, pydiv_ok _ _ h4, except_ok_bind]
  rfl

/-- C3: for every t-statistic and positive degrees of freedom the bucketed
p-value of `_calculate_p_value` is exactly the step function of the spec,
with strict boundary comparisons: 1.0 at `|t| = 0`, 0.0001 for `|t| > 4`,
0.01 for `3 < |t| ≤ 4`, 0.05 for `2 < |t| ≤ 3`, 0.1 for `1.5 < |t| ≤ 2`,
0.2 otherwise. -/
theorem bucketed_p_value_step (t : ℚ) (df : ℤ) (hdf : 0 < df) :
    calculate_p_value |t| df =
      if |t| = 0 then 1
      else if 4 < |t| then 0.0001
      else if 3 < |t| ∧ |t| ≤ 4 then 0.01
      else if 2 < |t| ∧ |t| ≤ 3 then 0.05
      else if 3/2 < |t| ∧ |t| ≤ 2 then 0.1
      else 0.2 := by
  unfold calculate_p_value
  rw [if_neg (by omega : ¬ df ≤ 0)]
  rcases eq_or_ne |t| 0 with h0 | h0
  · rw [if_pos h0, if_pos h0]
  rw [if_neg h0, if_neg h0]
  by_cases h4 : 4 < |t|
  · rw [if_pos h4, if_pos h4]
  rw [if_neg h4, if_neg h4]
  by_cases h3 : 3 < |t|
  · rw [if_pos h3, if_pos (show 3 < |t| ∧ |t| ≤ 4 from ⟨h3, by linarith⟩)]
  rw [if_neg h3,
      if_neg (show ¬(3 < |t| ∧ |t| ≤ 4) from fun h => h3 h.1)]
  by_cases h2 : 2 < |t|
  · rw [if_pos h2, if_pos (show 2 < |t| ∧ |t| ≤ 3 from ⟨h2, by linarith⟩)]
  rw [if_neg h2,
      if_neg (show ¬(2 < |t| ∧ |t| ≤ 3) from fun h => h2 h.1)]
  by_cases h15 : 3/2 < |t|
  · rw [if_pos h15, if_pos (show 3/2 < |t| ∧ |t| ≤ 2 from ⟨h15, by linarith⟩)]
  rw [if_neg h15,
      if_neg (show ¬(3/2 < |t| ∧ |t| ≤ 2) from fun h => h15 h.1)]

/-- Witness for C3 at `t = 5/2`, `df = 7`. -/
theorem bucketed_p_value_step_witness :
    calculate_p_value |(5/2 : ℚ)| 7 =
      if |(5/2 : ℚ)| = 0 then 1
      else if 4 < |(5/2 : ℚ)| then 0.0001
      else if 3 < |(5/2 : ℚ)| ∧ |(5/2 : ℚ)| ≤ 4 then 0.01
      else if 2 < |(5/2 : ℚ)| ∧ |(5/2 : ℚ)| ≤ 3 then 0.05
      else if 3/2 < |(5/2 : ℚ)| ∧ |(5/2 : ℚ)| ≤ 2 then 0.1
      else 0.2 :=
  bucketed_p_value_step (5/2) 7 (by decide)

/-- C4 (amended): the comparator returns a `ComparisonResult` without raising
for well-formed inputs with positive sample sizes *whose total exceeds 2*.
(As literally stated the claim is false: with two sample sizes of 1 the
pooled-SD denominator `n1 + n2 - 2` is zero and Python raises
`ZeroDivisionError`; see the counterexample.) -/
theorem comparator_total_when_df_positive (sqrt : ℚ → ℚ)
    (a b : ConversionResult) (cl : ℚ)
    (ha : 0 < a.sample_size) (hb : 0 < b.sample_size)
    (hdf : 2 < a.sample_size + b.sample_size) :
    (calculate_group_comparison sqrt a b cl).isOk = true :=
  compare_isOk_aux sqrt a b cl ha hb hdf

/-- Input records for the C4 counterexample: both well formed, both with
sample size 1 (a positive integer). -/
def c4errA : ConversionResult :=
  { mean := 1, sd := 1, se := 1, conversion_factor := 1, quality_score := 1,
    sample_size := 1 }

def c4errB : ConversionResult :=
  { mean := 2, sd := 1, se := 1, conversion_factor := 1, quality_score := 1,
    sample_size := 1 }

/-- Counterexample to C4 as stated: with both sample sizes equal to 1 the
comparator hits a division by `n1 + n2 - 2 = 0` (Python `ZeroDivisionError`)
instead of returning a result.  The square-root parameter is irrelevant: the
division error occurs for every choice. -/
theorem comparator_raises_on_df_zero :
    calculate_group_comparison (fun x => x) c4errA c4errB 0.95 =
      Except.error CompErr.divisionByZero := by
  have h1 : ((c4errA.sample_size : ℚ)) ≠ 0 := by norm_num [c4errA]
  have h2 : ((c4errB.sample_size : ℚ)) ≠ 0 := by norm_num [c4errB]
  have h3 : ((c4errA.sample_size : ℚ) + (c4errB.sample_size : ℚ) - 2) = 0 := by
    norm_num [c4errA, c4errB]
  unfold calculate_group_comparison
  rw [pydiv_ok _ _ h1, except_ok_bind, pydiv_ok _ _ h2, except_ok_bind,
      pydiv_err _ _ h3, except_error_bind]

/-- Input records for the C4 witness. -/
def c4okA : ConversionResult :=
  { mean := 3, sd := 1, se := 1, conversion_factor := 1, quality_score := 1,
    sample_size := 5 }

def c4okB : ConversionResult :=
  { mean := 2, sd := 2, se := 1, conversion_factor := 1, quality_score := 1,
    sample_size := 4 }

/-- Witness for the amended C4 at concrete inputs. -/
theorem comparator_total_when_df_positive_witness :
    (calculate_group_comparison (fun x => x) c4okA c4okB 0.95).isOk = true :=
  comparator_total_when_df_positive (fun x => x) c4okA c4okB 0.95
    (by decide) (by decide) (by decide)

/-- C8: swapping the comparator inputs negates `delta_mean`, `cohens_d` and
`t_statistic` and leaves `sd_diff`, `p_value` and `significant` unchanged,
whenever both orientations return a result.  Holds for every square-root
function and every confidence level. -/
theorem comparator_swap_antisymmetry (sqrt : ℚ → ℚ) (a b : ConversionResult)
    (cl : ℚ) (r r' : ComparisonResult)
    (h1 : calculate_group_comparison sqrt a b cl = Except.ok r)
    (h2 : calculate_group_comparison sqrt b a cl = Except.ok r') :
    r'.delta_mean = -r.delta_mean ∧ r'.cohens_d = -r.cohens_d ∧
    r'.t_statistic = -r.t_statistic ∧ r'.sd_diff = r.sd_diff ∧
    r'.p_value = r.p_value ∧ r'.significant = r.significant := by
  by_cases hA : ((a.sample_size : ℚ)) = 0
  · unfold calculate_group_comparison at h1
    rw [pydiv_err _ _ hA, except_error_bind] at h1
    exact Except.noConfusion h1
  by_cases hB : ((b.sample_size : ℚ)) = 0
  · unfold calculate_group_comparison at h1
    rw [pydiv_ok _ _ hA, except_ok_bind, pydiv_err _ _ hB,
        except_error_bind] at h1
    exact Except.noConfusion h1
  by_cases hD : ((a.sample_size : ℚ) + (b.sample_size : ℚ) - 2) = 0
  · unfold calculate_group_comparison at h1
    rw [pydiv_ok _ _ hA, except_ok_bind, pydiv_ok _ _ hB, except_ok_bind,
        pydiv_err _ _ hD, except_error_bind] at h1
    exact Except.noConfusion h1
  by_cases hC : (4 * ((a.sample_size : ℚ) + (b.sample_size : ℚ)) - 9) = 0
  · unfold calculate_group_comparison at h1
    rw [pydiv_ok _ _ hA, except_ok_bind, pydiv_ok _ _ hB, except_ok_bind,
        pydiv_ok _ _ hD, except_ok_bind, pydiv_err _ _ hC,
        except_error_bind] at h1
    exact Except.noConfusion h1
  have hD' : ((b.sample_size : ℚ) + (a.sample_size : ℚ) - 2) ≠ 0 := by
    rw [add_comm]; exact hD
  have hC' : (4 * ((b.sample_size : ℚ) + (a.sample_size : ℚ)) - 9) ≠ 0 := by
    rw [add_comm]; exact hC
  unfold calculate_group_comparison at h1 h2
  rw [pydiv_ok _ _ hA, except_ok_bind, pydiv_ok _ _ hB, except_ok_bind,
      pydiv_ok _ _ hD, except_ok_bind, pydiv_ok _ _ hC, except_ok_bind] at h1
  rw [pydiv_ok _ _ hB, except_ok_bind, pydiv_ok _ _ hA, except_ok_bind,
      pydiv_ok _ _ hD', except_ok_bind, pydiv_ok _ _ hC', except_ok_bind] at h2
  injection h1 with hr
  injection h2 with hr'
  subst hr hr'
  have hvsum : b.sd ^ 2 / (b.sample_size : ℚ) + a.sd ^ 2 / (a.sample_size : ℚ)
      = a.sd ^ 2 / (a.sample_size : ℚ) + b.sd ^ 2 / (b.sample_size : ℚ) :=
    add_comm _ _
  have hpool : (((b.sample_size : ℚ) - 1) * b.sd ^ 2 +
        ((a.sample_size : ℚ) - 1) * a.sd ^ 2) /
        ((b.sample_size : ℚ) + (a.sample_size : ℚ) - 2) =
      (((a.sample_size : ℚ) - 1) * a.sd ^ 2 +
        ((b.sample_size : ℚ) - 1) * b.sd ^ 2) /
        ((a.sample_size : ℚ) + (b.sample_size : ℚ) - 2) := by
    rw [add_comm (((b.sample_size : ℚ) - 1) * b.sd ^ 2),
        add_comm ((b.sample_size : ℚ)) ((a.sample_size : ℚ))]
  have hdelta : b.mean - a.mean = -(a.mean - b.mean) := by ring
  have hdfcomm : b.sample_size + a.sample_size - 2 =
      a.sample_size + b.sample_size - 2 := by omega
  refine ⟨?_, ?_, ?_, ?_, ?_, ?_⟩ <;> dsimp only
  · rw [hdelta, round4_neg]
  · rw [hpool, hdelta]
    by_cases hp : 0 < sqrt ((((a.sample_size : ℚ) - 1) * a.sd ^ 2 +
        ((b.sample_size : ℚ) - 1) * b.sd ^ 2) /
        ((a.sample_size : ℚ) + (b.sample_size : ℚ) - 2))
    · rw [if_pos hp, if_pos hp, neg_div, round4_neg]
    · rw [if_neg hp, if_neg hp, round4_zero, neg_zero]
  · rw [hvsum, hdelta]
    by_cases hp : 0 < sqrt (a.sd ^ 2 / (a.sample_size : ℚ) +
        b.sd ^ 2 / (b.sample_size : ℚ))
    · rw [if_pos hp, if_pos hp, neg_div, round4_neg]
    · rw [if_neg hp, if_neg hp, round4_zero, neg_zero]
  · rw [hvsum]
  · rw [hvsum, hdelta, hdfcomm]
    by_cases hp : 0 < sqrt (a.sd ^ 2 / (a.sample_size : ℚ) +
        b.sd ^ 2 / (b.sample_size : ℚ))
    · rw [if_pos hp, if_pos hp, neg_div, abs_neg]
    · rw [if_neg hp, if_neg hp]
  · rw [hvsum, hdelta, hdfcomm]
    by_cases hp : 0 < sqrt (a.sd ^ 2 / (a.sample_size : ℚ) +
        b.sd ^ 2 / (b.sample_size : ℚ))
    · rw [if_pos hp, if_pos hp, neg_div, abs_neg]
    · rw [if_neg hp, if_neg hp]

/-- Input records for the C8 witness. -/
def c8A : ConversionResult :=
  { mean := 2, sd := 1, se := 1, conversion_factor := 1, quality_score := 1,
    sample_size := 2 }

def c8B : ConversionResult :=
  { mean := 1, sd := 1, se := 1, conversion_factor := 1, quality_score := 1,
    sample_size := 2 }

/-- Square-root stand-in used by the C8 witness (any function works). -/
def c8sqrt (x : ℚ) : ℚ := x

def c8resAB : ComparisonResult :=
  (calculate_group_comparison c8sqrt c8A c8B 0.95).toOption.getD default

def c8resBA : ComparisonResult :=
  (calculate_group_comparison c8sqrt c8B c8A 0.95).toOption.getD default

/-- Witness for C8 at concrete inputs. -/
theorem comparator_swap_antisymmetry_witness :
    c8resBA.delta_mean = -c8resAB.delta_mean ∧
    c8resBA.cohens_d = -c8resAB.cohens_d ∧
    c8resBA.t_statistic = -c8resAB.t_statistic ∧
    c8resBA.sd_diff = c8resAB.sd_diff ∧
    c8resBA.p_value = c8resAB.p_value ∧
    c8resBA.significant = c8resAB.significant := by
  have hok1 : (calculate_group_comparison c8sqrt c8A c8B 0.95).isOk = true :=
    compare_isOk_aux c8sqrt c8A c8B 0.95 (by decide) (by decide) (by decide)
  have hok2 : (calculate_group_comparison c8sqrt c8B c8A 0.95).isOk = true :=
    compare_isOk_aux c8sqrt c8B c8A 0.95 (by decide) (by decide) (by decide)
  exact comparator_swap_antisymmetry c8sqrt c8A c8B 0.95 c8resAB c8resBA
    (except_eq_ok_of_isOk _ hok1) (except_eq_ok_of_isOk _ hok2)

/-- C9 (amended): whenever both standard deviations are zero and the combined
sample size exceeds 2 (so the pooled-SD division is defined), the comparator
returns the explicit fallback values by guarded division: `sd_diff = 0`,
`t_statistic = 0`, `cohens_d = 0`, `p_value = 1.0`, `significant = False`.
(As literally stated the claim is false for `df ≤ 0`: with both sample sizes
equal to 1, `df = 0` arises and the pooled-SD division raises instead of
falling back; see the counterexample.) -/
theorem comparator_degenerate_fallback (sqrt : ℚ → ℚ)
    (a b : ConversionResult) (cl : ℚ) (hs0 : sqrt 0 = 0)
    (hasd : a.sd = 0) (hbsd : b.sd = 0)
    (ha : 0 < a.sample_size) (hb : 0 < b.sample_size)
    (hdf : 2 < a.sample_size + b.sample_size) (hcl : 0 ≤ cl) :
    calculate_group_comparison sqrt a b cl = Except.ok
      { delta_mean := round4 (a.mean - b.mean), sd_diff := 0,
        ci_lower := round4 (a.mean - b.mean),
        ci_upper := round4 (a.mean - b.mean),
        confidence_level := cl, cohens_d := 0, hedges_g := 0, p_value := 1,
        significant := false, t_statistic := 0,
        degrees_of_freedom := a.sample_size + b.sample_size - 2,
        interpretation := iNotSignificant } := by
  have h1 : ((a.sample_size : ℚ)) ≠ 0 := by
    exact_mod_cast Int.ne_of_gt ha
  have h2 : ((b.sample_size : ℚ)) ≠ 0 := by
    exact_mod_cast Int.ne_of_gt hb
  have hq : (2 : ℚ) < (a.sample_size : ℚ) + (b.sample_size : ℚ) := by
    exact_mod_cast hdf
  have hq3 : (3 : ℚ) ≤ (a.sample_size : ℚ) + (b.sample_size : ℚ) := by
    exact_mod_cast (by omega : (3:ℤ) ≤ a.sample_size + b.sample_size)
  have h3 : ((a.sample_size : ℚ) + (b.sample_size : ℚ) - 2) ≠ 0 := by linarith
  have h4 : (4 * ((a.sample_size : ℚ) + (b.sample_size : ℚ)) - 9) ≠ 0 := by
    linarith
  unfold calculate_group_comparison
  rw [pydiv_ok _ _ h1, except_ok_bind, pydiv_ok _ _ h2, except_ok_bind,
      pydiv_ok _ _ h3, except_ok_bind, pydiv_ok _ _ h4, except_ok_bind]
  have hvsum : a.sd ^ 2 / (a.sample_size : ℚ) + b.sd ^ 2 / (b.sample_size : ℚ)
      = 0 := by
    rw [hasd, hbsd]
    norm_num
  have hpool : (((a.sample_size : ℚ) - 1) * a.sd ^ 2 +
      ((b.sample_size : ℚ) - 1) * b.sd ^ 2) /
      ((a.sample_size : ℚ) + (b.sample_size : ℚ) - 2) = 0 := by
    rw [hasd, hbsd]
    norm_num
  rw [hvsum, hpool, hs0]
  rw [if_neg (lt_irrefl (0 : ℚ))]
  have hp : calculate_p_value |(0 : ℚ)| (a.sample_size + b.sample_size - 2)
      = 1 := by
    unfold calculate_p_value
    rw [abs_zero, if_neg (by omega : ¬ a.sample_size + b.sample_size - 2 ≤ 0),
        if_pos rfl]
  have hsig : decide ((1 : ℚ) < 1 - cl) = false := by
    rw [decide_eq_false_iff_not]
    intro h
    linarith
  simp only [mul_zero, sub_zero, add_zero, zero_mul]
  rw [hp, hsig, round4_zero, round4_one]
  rfl

/-- Input records for the C9 counterexample: both standard deviations zero,
both sample sizes 1, so `df = 0` arises. -/
def c9errA : ConversionResult :=
  { mean := 3, sd := 0, se := 1, conversion_factor := 1, quality_score := 1,
    sample_size := 1 }

def c9errB : ConversionResult :=
  { mean := 1, sd := 0, se := 1, conversion_factor := 1, quality_score := 1,
    sample_size := 1 }

/-- Counterexample to C9 as stated: when `df = 0` arises (both sample sizes
equal to 1, both standard deviations zero, so `sd_diff = 0` and
`pooled_sd = 0` also arise), the comparator raises a division error on
`n1 + n2 - 2 = 0` instead of returning the fallback values. -/
theorem comparator_degenerate_df_zero_raises :
    calculate_group_comparison (fun _ => 0) c9errA c9errB 0.95 =
      Except.error CompErr.divisionByZero := by
  have h1 : ((c9errA.sample_size : ℚ)) ≠ 0 := by norm_num [c9errA]
  have h2 : ((c9errB.sample_size : ℚ)) ≠ 0 := by norm_num [c9errB]
  have h3 : ((c9errA.sample_size : ℚ) + (c9errB.sample_size : ℚ) - 2) = 0 := by
    norm_num [c9errA, c9errB]
  unfold calculate_group_comparison
  rw [pydiv_ok _ _ h1, except_ok_bind, pydiv_ok _ _ h2, except_ok_bind,
      pydiv_err _ _ h3, except_error_bind]

/-- Input records for the C9 witness. -/
def c9okA : ConversionResult :=
  { mean := 3, sd := 0, se := 1, conversion_factor := 1, quality_score := 1,
    sample_size := 2 }

def c9okB : ConversionResult :=
  { mean := 1, sd := 0, se := 1, conversion_factor := 1, quality_score := 1,
    sample_size := 2 }

def c9sqrt (_x : ℚ) : ℚ := 0

/-- Witness for the amended C9 at concrete inputs. -/
theorem comparator_degenerate_fallback_witness :
    calculate_group_comparison c9sqrt c9okA c9okB 0.95 = Except.ok
      { delta_mean := round4 (c9okA.mean - c9okB.mean), sd_diff := 0,
        ci_lower := round4 (c9okA.mean - c9okB.mean),
        ci_upper := round4 (c9okA.mean - c9okB.mean),
        confidence_level := 0.95, cohens_d := 0, hedges_g := 0, p_value := 1,
        significant := false, t_statistic := 0,
        degrees_of_freedom := c9okA.sample_size + c9okB.sample_size - 2,
        interpretation := iNotSignificant } :=
  comparator_degenerate_fallback c9sqrt c9okA c9okB 0.95 rfl rfl rfl
    (by decide) (by decide) (by decide) (by norm_num)

/-- C5: `convert_to_mean_sd` fails with the unsupported-type error carrying
the offending type string exactly when the requested type lies outside the
closed set of the six conversion keys (in particular for UNKNOWN and for
unresolved aliases such as SEM), and returns a result normally for every type
in that set with any positive sample size. -/
theorem convert_unsupported_type_iff (mean error_bar : ℚ) (ty : String)
    (n : ℤ) (s : ℚ) (hn : 0 < n) :
    (convert_to_mean_sd mean error_bar ty n s =
        Except.error (ConvError.unsupportedType ty) ↔ ty ∉ convKeys) ∧
    (ty ∈ convKeys →
      (convert_to_mean_sd mean error_bar ty n s).isOk = true) := by
  by_cases hty : ty ∈ convKeys
  · unfold convert_to_mean_sd
    rw [if_pos hty]
    refine ⟨⟨fun h => Except.noConfusion h, fun h => absurd hty h⟩, fun _ => rfl⟩
  · unfold convert_to_mean_sd
    rw [if_neg hty]
    exact ⟨⟨fun _ => hty, fun _ => rfl⟩, fun h => absurd h hty⟩

/-- Witness for C5 at the unresolved alias SEM (and the error side of the
iff). -/
theorem convert_unsupported_type_iff_witness :
    (convert_to_mean_sd 1 1 tSEM 2 1 =
        Except.error (ConvError.unsupportedType tSEM) ↔ tSEM ∉ convKeys) ∧
    (tSEM ∈ convKeys → (convert_to_mean_sd 1 1 tSEM 2 1).isOk = true) :=
  convert_unsupported_type_iff 1 1 tSEM 2 1 (by decide)

/-- Helper: `round6` of a value whose millionfold is an integer. -/
theorem round6_of_num (n : ℤ) (x : ℚ) (h : x * 1000000 = (n : ℚ)) :
    round6 x = (n : ℚ) / 1000000 := by
  unfold round6
  rw [h, rhe_intCast]

/-- C1: the conversion engine realises exactly the formula table of the spec
(row by row, all numeric outputs rounded to 6 decimals), the recorded
conversion factor is the multiplier taking the raw error bar to the raw SD,
and in particular `convert(10, 0.5, SE, 25)` yields `sd = 2.5`. -/
theorem conversion_formula_table :
    (∀ (ty : String) (mean error_bar : ℚ) (n : ℤ) (s : ℚ) (row : SpecRow),
      specFormulaTable ty error_bar s = some row →
      convert_to_mean_sd mean error_bar ty n s = Except.ok
        { mean := round6 mean, sd := round6 row.sd, se := round6 row.se,
          conversion_factor := round6 row.factor, quality_score := row.quality,
          asymmetric_approximation := row.asym, original_mean := mean,
          original_error_bar := error_bar, original_error_type := ty,
          sample_size := n, method_used := get_method_name ty }) ∧
    (∀ (ty : String) (error_bar s : ℚ) (row : SpecRow),
      specFormulaTable ty error_bar s = some row →
      row.factor * error_bar = row.sd) ∧
    (∀ s : ℚ, s * s = 25 → 0 ≤ s →
      convert_to_mean_sd 10 (1/2) tSE 25 s = Except.ok
        { mean := 10, sd := 5/2, se := 1/2, conversion_factor := 5,
          quality_score := 0.95, asymmetric_approximation := false,
          original_mean := 10, original_error_bar := 1/2,
          original_error_type := tSE, sample_size := 25,
          method_used := get_method_name tSE }) := by
  refine ⟨?_, ?_, ?_⟩
  · intro ty mean error_bar n s row h
    unfold specFormulaTable at h
    by_cases h1 : ty = tSD
    · rw [if_pos h1] at h
      obtain rfl := Option.some.inj h
      subst h1
      show convert_to_mean_sd mean error_bar tSD n s = Except.ok
        { mean := round6 mean, sd := round6 error_bar,
          se := round6 (error_bar / s), conversion_factor := round6 1,
          quality_score := 1, asymmetric_approximation := false,
          original_mean := mean, original_error_bar := error_bar,
          original_error_type := tSD, sample_size := n,
          method_used := get_method_name tSD }
      rw [round6_one]
      unfold convert_to_mean_sd
      rw [if_pos (show tSD ∈ convKeys from by decide)]
      rfl
    rw [if_neg h1] at h
    by_cases h2 : ty = tSE
    · rw [if_pos h2] at h
      obtain rfl := Option.some.inj h
      subst h2
      unfold convert_to_mean_sd
      rw [if_pos (show tSE ∈ convKeys from by decide)]
      rfl
    rw [if_neg h2] at h
    by_cases h3 : ty = tCI95
    · rw [if_pos h3] at h
      obtain rfl := Option.some.inj h
      subst h3
      unfold convert_to_mean_sd
      rw [if_pos (show tCI95 ∈ convKeys from by decide)]
      rfl
    rw [if_neg h3] at h
    by_cases h4 : ty = tCI99
    · rw [if_pos h4] at h
      obtain rfl := Option.some.inj h
      subst h4
      unfold convert_to_mean_sd
      rw [if_pos (show tCI99 ∈ convKeys from by decide)]
      rfl
    rw [if_neg h4] at h
    by_cases h5 : ty = t2SE
    · rw [if_pos h5] at h
      obtain rfl := Option.some.inj h
      subst h5
      unfold convert_to_mean_sd
      rw [if_pos (show t2SE ∈ convKeys from by decide)]
      rfl
    rw [if_neg h5] at h
    by_cases h6 : ty = tASYMMETRIC
    · rw [if_pos h6] at h
      obtain rfl := Option.some.inj h
      subst h6
      unfold convert_to_mean_sd
      rw [if_pos (show tASYMMETRIC ∈ convKeys from by decide)]
      rfl
    rw [if_neg h6] at h
    exact Option.noConfusion h
  · intro ty error_bar s row h
    unfold specFormulaTable at h
    by_cases h1 : ty = tSD
    · rw [if_pos h1] at h
      obtain rfl := Option.some.inj h
      ring
    rw [if_neg h1] at h
    by_cases h2 : ty = tSE
    · rw [if_pos h2] at h
      obtain rfl := Option.some.inj h
      ring
    rw [if_neg h2] at h
    by_cases h3 : ty = tCI95
    · rw [if_pos h3] at h
      obtain rfl := Option.some.inj h
      ring
    rw [if_neg h3] at h
    by_cases h4 : ty = tCI99
    · rw [if_pos h4] at h
      obtain rfl := Option.some.inj h
      ring
    rw [if_neg h4] at h
    by_cases h5 : ty = t2SE
    · rw [if_pos h5] at h
      obtain rfl := Option.some.inj h
      ring
    rw [if_neg h5] at h
    by_cases h6 : ty = tASYMMETRIC
    · rw [if_pos h6] at h
      obtain rfl := Option.some.inj h
      ring
    rw [if_neg h6] at h
    exact Option.noConfusion h
  · intro s hsq hpos
    have h5 : s = 5 := by
      have hz : (s - 5) * (s + 5) = 0 := by linear_combination hsq
      rcases mul_eq_zero.1 hz with hz5 | hz5
      · linarith [sub_eq_zero.1 hz5]
      · exfalso
        have : s = -5 := by linarith
        linarith
    subst h5
    unfold convert_to_mean_sd
    rw [if_pos (show tSE ∈ convKeys from by decide)]
    have e1 : round6 (10 : ℚ) = 10 := by
      rw [round6_of_num 10000000 _ (by norm_num)]
      norm_num
    have e2 : round6 ((1/2 : ℚ) * 5) = 5/2 := by
      rw [round6_of_num 2500000 _ (by norm_num)]
      norm_num
    have e3 : round6 ((1/2 : ℚ)) = 1/2 := by
      rw [round6_of_num 500000 _ (by norm_num)]
      norm_num
    have e4 : round6 ((5 : ℚ)) = 5 := by
      rw [round6_of_num 5000000 _ (by norm_num)]
      norm_num
    show Except.ok
        ({ mean := round6 (10 : ℚ), sd := round6 ((1/2 : ℚ) * 5),
           se := round6 ((1/2 : ℚ)), conversion_factor := round6 ((5 : ℚ)),
           quality_score := 0.95, asymmetric_approximation := false,
           original_mean := 10, original_error_bar := 1/2,
           original_error_type := tSE, sample_size := 25,
           method_used := get_method_name tSE } : ConversionResult) = _
    rw [e1, e2, e3, e4]

/-- Witness for C1: the SE row at concrete inputs, the factor identity for
that row, and the spec scenario `convert(10, 0.5, SE, 25)` with `√25 = 5`. -/
theorem conversion_formula_table_witness :
    (convert_to_mean_sd 1 1 tSE 4 2 = Except.ok
      { mean := round6 1, sd := round6 2, se := round6 1,
        conversion_factor := round6 2, quality_score := 0.95,
        asymmetric_approximation := false, original_mean := 1,
        original_error_bar := 1, original_error_type := tSE,
        sample_size := 4, method_used := get_method_name tSE }) ∧
    ((2 : ℚ) * 1 = 2) ∧
    (convert_to_mean_sd 10 (1/2) tSE 25 5 = Except.ok
      { mean := 10, sd := 5/2, se := 1/2, conversion_factor := 5,
        quality_score := 0.95, asymmetric_approximation := false,
        original_mean := 10, original_error_bar := 1/2,
        original_error_type := tSE, sample_size := 25,
        method_used := get_method_name tSE }) := by
  have hrow : specFormulaTable tSE 1 2 = some ⟨1, 2, 2, 0.95, false⟩ := by
    unfold specFormulaTable
    rw [if_neg (show ¬(tSE = tSD) from by decide), if_pos rfl]
    simp only [Option.some.injEq, SpecRow.mk.injEq]
    norm_num
  refine ⟨conversion_formula_table.1 tSE 1 1 4 2 ⟨1, 2, 2, 0.95, false⟩ hrow,
    conversion_formula_table.2.1 tSE 1 2 ⟨1, 2, 2, 0.95, false⟩ hrow,
    conversion_formula_table.2.2 5 (by norm_num) (by norm_num)⟩

/-- Helper: the SE/SD-inconsistency warning is absent whenever the deviation
is within tolerance. -/
theorem seSd_warning_not_mem (r : ConversionResult) (s : ℚ)
    (h : ¬ (0.001 < |r.se - (if 0 < r.sample_size then r.sd / s else 0)|)) :
    wSeSdInconsistent ∉ (validate_conversion_result r s).warnings := by
  intro hmem
  unfold validate_conversion_result at hmem
  rw [if_neg h] at hmem
  simp only [List.mem_append] at hmem
  rcases hmem with (((h1 | h1) | h1) | h1) | h1
  · revert h1
    split_ifs <;> intro h1 <;> exact absurd h1 (by decide)
  · revert h1
    split_ifs <;> intro h1 <;> exact absurd h1 (by decide)
  · exact absurd h1 (by decide)
  · revert h1
    unfold cv_warnings
    split_ifs <;> intro h1 <;> exact absurd h1 (by decide)
  · revert h1
    split_ifs <;> intro h1 <;> exact absurd h1 (by decide)

/-- Helper: conversion succeeds for every supported type key. -/
theorem convert_isOk_of_mem (mean error_bar : ℚ) (ty : String) (n : ℤ)
    (s : ℚ) (h : ty ∈ convKeys) :
    (convert_to_mean_sd mean error_bar ty n s).isOk = true := by
  unfold convert_to_mean_sd
  rw [if_pos h]
  rfl

/-- C7: every engine-produced result satisfies the cross-field invariant
`|se - sd/√n| ≤ 0.001` even after 6-decimal rounding, so the SE/SD
consistency check of the validate step passes on it; and validate marks a
result invalid exactly when `sd ≤ 0` or `se ≤ 0`.  The hypothesis `1 ≤ s`
holds for the real `√n` whenever `n ≥ 1`. -/
theorem engine_se_sd_invariant :
    (∀ (ty : String) (mean error_bar : ℚ) (n : ℤ) (s : ℚ)
       (r : ConversionResult),
      ty ∈ convKeys → 0 < error_bar → 0 < n → 1 ≤ s →
      convert_to_mean_sd mean error_bar ty n s = Except.ok r →
      |r.se - r.sd / s| ≤ 0.001 ∧
      wSeSdInconsistent ∉ (validate_conversion_result r s).warnings) ∧
    (∀ (r : ConversionResult) (s : ℚ),
      (validate_conversion_result r s).is_valid = false ↔
        (r.sd ≤ 0 ∨ r.se ≤ 0)) := by
  have hmain : ∀ (ty : String) (mean error_bar : ℚ) (n : ℤ) (s : ℚ)
      (r : ConversionResult), ty ∈ convKeys → 1 ≤ s →
      convert_to_mean_sd mean error_bar ty n s = Except.ok r →
      |r.se - r.sd / s| ≤ 0.001 ∧ r.sample_size = n := by
    intro ty mean eb n s r hty hs hok
    have hs0 : s ≠ 0 := by
      intro hz
      rw [hz] at hs
      norm_num at hs
    unfold convert_to_mean_sd at hok
    rw [if_pos hty] at hok
    simp only [convKeys, List.mem_cons, List.not_mem_nil, or_false] at hty
    rcases hty with h1 | h1 | h1 | h1 | h1 | h1
    · subst h1
      rw [if_pos rfl] at hok
      injection hok with hr
      subst hr
      exact ⟨round6_ratio_close eb s hs, rfl⟩
    · subst h1
      rw [if_neg (show ¬(tSE = tSD) from by decide), if_pos rfl] at hok
      injection hok with hr
      subst hr
      refine ⟨?_, rfl⟩
      have h := round6_ratio_close (eb * s) s hs
      rwa [mul_div_cancel_right₀ eb hs0] at h
    · subst h1
      rw [if_neg (show ¬(tCI95 = tSD) from by decide),
          if_neg (show ¬(tCI95 = tSE) from by decide), if_pos rfl] at hok
      injection hok with hr
      subst hr
      refine ⟨?_, rfl⟩
      have h := round6_ratio_close (eb / 1.96 * s) s hs
      rwa [mul_div_cancel_right₀ _ hs0] at h
    · subst h1
      rw [if_neg (show ¬(tCI99 = tSD) from by decide),
          if_neg (show ¬(tCI99 = tSE) from by decide),
          if_neg (show ¬(tCI99 = tCI95) from by decide), if_pos rfl] at hok
      injection hok with hr
      subst hr
      refine ⟨?_, rfl⟩
      have h := round6_ratio_close (eb / 2.576 * s) s hs
      rwa [mul_div_cancel_right₀ _ hs0] at h
    · subst h1
      rw [if_neg (show ¬(t2SE = tSD) from by decide),
          if_neg (show ¬(t2SE = tSE) from by decide),
          if_neg (show ¬(t2SE = tCI95) from by decide),
          if_neg (show ¬(t2SE = tCI99) from by decide), if_pos rfl] at hok
      injection hok with hr
      subst hr
      refine ⟨?_, rfl⟩
      have h := round6_ratio_close (eb / 2 * s) s hs
      rwa [mul_div_cancel_right₀ _ hs0] at h
    · subst h1
      rw [if_neg (show ¬(tASYMMETRIC = tSD) from by decide),
          if_neg (show ¬(tASYMMETRIC = tSE) from by decide),
          if_neg (show ¬(tASYMMETRIC = tCI95) from by decide),
          if_neg (show ¬(tASYMMETRIC = tCI99) from by decide),
          if_neg (show ¬(tASYMMETRIC = t2SE) from by decide)] at hok
      injection hok with hr
      subst hr
      refine ⟨?_, rfl⟩
      have h := round6_ratio_close (eb * s) s hs
      rwa [mul_div_cancel_right₀ eb hs0] at h
  refine ⟨?_, ?_⟩
  · intro ty mean eb n s r hty _heb hn hs hok
    obtain ⟨hb, hsz⟩ := hmain ty mean eb n s r hty hs hok
    refine ⟨hb, ?_⟩
    apply seSd_warning_not_mem
    rw [if_pos (show 0 < r.sample_size from by rw [hsz]; exact hn)]
    exact not_lt.2 hb
  · intro r s
    unfold validate_conversion_result
    by_cases h1 : r.sd ≤ 0 <;> by_cases h2 : r.se ≤ 0 <;>
      simp [h1, h2]

/-- Concrete engine output used by the C7 witness. -/
def c7r : ConversionResult :=
  (convert_to_mean_sd 0 1 tSD 4 2).toOption.getD default

/-- Witness for C7 at the SD row with `n = 4`, `√n = 2`. -/
theorem engine_se_sd_invariant_witness :
    (|c7r.se - c7r.sd / 2| ≤ 0.001 ∧
      wSeSdInconsistent ∉ (validate_conversion_result c7r 2).warnings) ∧
    ((validate_conversion_result c7r 2).is_valid = false ↔
      (c7r.sd ≤ 0 ∨ c7r.se ≤ 0)) :=
  ⟨engine_se_sd_invariant.1 tSD 0 1 4 2 c7r (by decide) (by norm_num)
      (by decide) (by norm_num)
      (except_eq_ok_of_isOk _ (convert_isOk_of_mem 0 1 tSD 4 2 (by decide))),
   engine_se_sd_invariant.2 c7r 2⟩

/- ===== Detector lemmas and claims ===== -/

/-- Helper: when the normalized declared type is recognized and its
validation confidence exceeds 0.5, the detector returns it immediately. -/
theorem detect_valid_branch (m e : ℚ) (n : ℤ) (s : ℚ) (d : String)
    (hmem : normalize_type d ∈ detectorSupported)
    (hv : 1/2 < validate_declared_type m e (normalize_type d) n s) :
    detect_error_type (some m) (some e) d (some n) s =
      (normalize_type d, validate_declared_type m e (normalize_type d) n s) := by
  simp only [detect_error_type]
  rw [if_pos ⟨hmem, hv⟩]

/-- Helper: when validation does not exceed 0.5 but auto-detection scores
below 0.7 and the declared type is recognized, the detector falls back to the
declared type with confidence 0.6. -/
theorem detect_fallback_branch (m e : ℚ) (n : ℤ) (s : ℚ) (d : String)
    (hmem : normalize_type d ∈ detectorSupported)
    (hv : ¬ (1/2 < validate_declared_type m e (normalize_type d) n s))
    (ha : (auto_detect_type m e n s).2 < 0.7) :
    detect_error_type (some m) (some e) d (some n) s =
      (normalize_type d, 0.6) := by
  simp only [detect_error_type]
  rw [if_neg (fun hc => hv hc.2), if_pos ⟨ha, hmem⟩]

/-- C2: with all three numeric fields present and a recognized declared type,
the detector returns the declared type with the validation confidence as soon
as that confidence exceeds 0.5 (auto-detection is not consulted); otherwise,
when the best auto-detection score is below 0.7, it returns the declared type
with confidence exactly 0.6.  In particular `detect(10, 2, SD, 30)` returns
`(SD, 0.9)` (the hypothesis `1 < s` holds for the real `√30 ≈ 5.48`). -/
theorem detector_declared_type_priority :
    (∀ (m e : ℚ) (n : ℤ) (s : ℚ) (d : String),
      normalize_type d ∈ detectorSupported →
      (1/2 < validate_declared_type m e (normalize_type d) n s →
        detect_error_type (some m) (some e) d (some n) s =
          (normalize_type d,
           validate_declared_type m e (normalize_type d) n s)) ∧
      (validate_declared_type m e (normalize_type d) n s ≤ 1/2 →
        (auto_detect_type m e n s).2 < 0.7 →
        detect_error_type (some m) (some e) d (some n) s =
          (normalize_type d, 0.6))) ∧
    (∀ s : ℚ, 1 < s →
      detect_error_type (some 10) (some 2) tSD (some 30) s = (tSD, 0.9)) := by
  constructor
  · intro m e n s d hmem
    exact ⟨fun hv => detect_valid_branch m e n s d hmem hv,
      fun hv ha => detect_fallback_branch m e n s d hmem (not_lt.2 hv) ha⟩
  · intro s hs
    have hnorm : normalize_type tSD = tSD := by decide
    have hv : validate_declared_type 10 2 tSD 30 s = 0.9 := by
      unfold validate_declared_type
      rw [if_neg (by norm_num : ¬((2:ℚ) ≤ 0 ∨ (30:ℤ) ≤ 0)),
          if_neg (by norm_num : ¬(|(10:ℚ)| * 3 < 2)), if_pos rfl,
          if_pos ⟨div_pos (by norm_num) (by linarith),
            (div_lt_iff (by linarith)).2 (by linarith)⟩]
    have h := detect_valid_branch 10 2 30 s tSD
      (by rw [hnorm]; decide) (by rw [hnorm, hv]; norm_num)
    rw [hnorm, hv] at h
    exact h

/-- Witness for C2 at `s = 2` (the conclusion only needs `1 < s`). -/
theorem detector_declared_type_priority_witness :
    detect_error_type (some 10) (some 2) tSD (some 30) 2 = (tSD, 0.9) :=
  detector_declared_type_priority.2 2 (by norm_num)

/-- Helper: auto-detection returns `(UNKNOWN, 0)` whenever the error bar or
the sample size is non-positive (no candidate, or the caught sqrt/division
exception). -/
theorem auto_detect_unknown_of_nonpos (m e : ℚ) (n : ℤ) (s : ℚ)
    (h : e ≤ 0 ∨ n ≤ 0) : auto_detect_type m e n s = (tUNKNOWN, 0) := by
  unfold auto_detect_type
  by_cases hpos : 0 < e
  · have hn : n ≤ 0 := by
      rcases h with h | h
      · linarith
      · exact h
    rw [if_pos ⟨hpos, hn⟩]
  · rw [if_neg (fun hc => hpos hc.1), if_neg hpos]
    rfl

/-- C10: with all three fields present, a non-positive error bar or sample
size, and a recognized declared type, the detector returns the declared type
with confidence exactly 0.6 (validation confidence is capped at 0.0 and
auto-detection yields `(UNKNOWN, 0.0)`, so the declared-type fallback
engages) rather than `(UNKNOWN, 0.0)`. -/
theorem detector_declared_fallback_on_implausible (m e : ℚ) (n : ℤ) (s : ℚ)
    (d : String) (hmem : normalize_type d ∈ detectorSupported)
    (h : e ≤ 0 ∨ n ≤ 0) :
    detect_error_type (some m) (some e) d (some n) s =
      (normalize_type d, 0.6) := by
  have hv : validate_declared_type m e (normalize_type d) n s = 0 := by
    unfold validate_declared_type
    rw [if_pos h]
  have ha : (auto_detect_type m e n s).2 < 0.7 := by
    rw [auto_detect_unknown_of_nonpos m e n s h]
    norm_num
  exact detect_fallback_branch m e n s d hmem (by rw [hv]; norm_num) ha

/-- Witness for C10 at a negative error bar with declared type SD. -/
theorem detector_declared_fallback_on_implausible_witness :
    detect_error_type (some 5) (some (-1)) tSD (some 10) 1 =
      (normalize_type tSD, 0.6) :=
  detector_declared_fallback_on_implausible 5 (-1) 10 1 tSD (by decide)
    (Or.inl (by norm_num))

/-- Helper: range of the declared-type validation confidence. -/
theorem validate_declared_range (m e : ℚ) (ty : String) (n : ℤ) (s : ℚ) :
    0 ≤ validate_declared_type m e ty n s ∧
    validate_declared_type m e ty n s ≤ 1 := by
  unfold validate_declared_type
  split_ifs <;> norm_num

/-- Helper: range of the SD-assumption score. -/
theorem score_sd_range (m sd se : ℚ) :
    0 ≤ score_sd_assumption m sd se ∧ score_sd_assumption m sd se ≤ 1 := by
  simp only [score_sd_assumption]
  refine ⟨le_min ?_ (by norm_num), min_le_right _ _⟩
  split_ifs <;> norm_num

/-- Helper: range of the SE-assumption score. -/
theorem score_se_range (m se sd : ℚ) :
    0 ≤ score_se_assumption m se sd ∧ score_se_assumption m se sd ≤ 1 := by
  simp only [score_se_assumption]
  refine ⟨le_min ?_ (by norm_num), min_le_right _ _⟩
  split_ifs <;> norm_num

/-- Helper: range of the CI-assumption score. -/
theorem score_ci_range (m c se sd : ℚ) :
    0 ≤ score_ci_assumption m c se sd ∧ score_ci_assumption m c se sd ≤ 1 := by
  simp only [score_ci_assumption]
  refine ⟨le_min ?_ (by norm_num),
    le_trans (min_le_right _ _) (by norm_num)⟩
  split_ifs <;> norm_num

/-- Helper: a left fold with the Python `max` pick stays inside the list. -/
theorem foldl_pick_mem (x : String × ℚ) (xs : List (String × ℚ)) :
    xs.foldl (fun acc c => if acc.2 < c.2 then c else acc) x ∈ x :: xs := by
  induction xs generalizing x with
  | nil => simp
  | cons c cs ih =>
    simp only [List.foldl_cons]
    have h := ih (if x.2 < c.2 then c else x)
    by_cases hxc : x.2 < c.2
    · rw [if_pos hxc]
      rw [if_pos hxc] at h
      exact List.mem_cons_of_mem x h
    · rw [if_neg hxc]
      rw [if_neg hxc] at h
      rcases List.mem_cons.1 h with h | h
      · exact List.mem_cons.2 (Or.inl h)
      · exact List.mem_cons_of_mem x (List.mem_cons_of_mem c h)

/-- Helper: the best candidate is UNKNOWN or one of the candidates. -/
theorem bestCandidate_cases (l : List (String × ℚ)) :
    bestCandidate l = (tUNKNOWN, 0) ∨ bestCandidate l ∈ l := by
  cases l with
  | nil => exact Or.inl rfl
  | cons x xs => exact Or.inr (foldl_pick_mem x xs)

/-- Helper: range and label set of auto-detection. -/
theorem auto_detect_range (m e : ℚ) (n : ℤ) (s : ℚ) :
    (auto_detect_type m e n s).1 ∈ [tSD, tSE, tCI95, tCI99, t2SE, tUNKNOWN] ∧
    0 ≤ (auto_detect_type m e n s).2 ∧ (auto_detect_type m e n s).2 ≤ 1 := by
  have hunk : (tUNKNOWN, (0:ℚ)).1 ∈ [tSD, tSE, tCI95, tCI99, t2SE, tUNKNOWN] ∧
      (0:ℚ) ≤ (tUNKNOWN, (0:ℚ)).2 ∧ (tUNKNOWN, (0:ℚ)).2 ≤ 1 :=
    ⟨by decide, by norm_num⟩
  unfold auto_detect_type
  split_ifs with h1 h2
  · exact hunk
  · rcases bestCandidate_cases
      [(tSD, score_sd_assumption m e (e / s)),
       (tSE, score_se_assumption m e (e * s)),
       (tCI95, score_ci_assumption m e (e / 1.96) (e / 1.96 * s)),
       (tCI99, score_ci_assumption m e (e / 2.576) (e / 2.576 * s)),
       (t2SE, score_se_assumption m (e / 2) (e / 2 * s))] with h | h
    · rw [h]
      exact hunk
    · simp only [List.mem_cons, List.not_mem_nil, or_false] at h
      rcases h with h | h | h | h | h <;> rw [h]
      · exact ⟨List.mem_cons_self _ _, (score_sd_range m e (e / s)).1,
          (score_sd_range m e (e / s)).2⟩
      · exact ⟨List.mem_cons_of_mem _ (List.mem_cons_self _ _),
          (score_se_range m e (e * s)).1, (score_se_range m e (e * s)).2⟩
      · exact ⟨List.mem_cons_of_mem _ (List.mem_cons_of_mem _
            (List.mem_cons_self _ _)),
          (score_ci_range m e (e / 1.96) (e / 1.96 * s)).1,
          (score_ci_range m e (e / 1.96) (e / 1.96 * s)).2⟩
      · exact ⟨List.mem_cons_of_mem _ (List.mem_cons_of_mem _
            (List.mem_cons_of_mem _ (List.mem_cons_self _ _))),
          (score_ci_range m e (e / 2.576) (e / 2.576 * s)).1,
          (score_ci_range m e (e / 2.576) (e / 2.576 * s)).2⟩
      · exact ⟨List.mem_cons_of_mem _ (List.mem_cons_of_mem _
            (List.mem_cons_of_mem _ (List.mem_cons_of_mem _
              (List.mem_cons_self _ _)))),
          (score_se_range m (e / 2) (e / 2 * s)).1,
          (score_se_range m (e / 2) (e / 2 * s)).2⟩
  · exact hunk

/-- Helper: a normalized declared type that passes the membership test is one
of the six concrete type labels (the three alias keys are unreachable after
alias resolution). -/
theorem normalize_recognized_mem (d : String)
    (h : normalize_type d ∈ detectorSupported) :
    normalize_type d ∈ [tSD, tSE, tCI95, tCI99, t2SE, tASYMMETRIC] := by
  unfold normalize_type at h ⊢
  split_ifs at h ⊢ with hd
  · exact absurd h (by decide)
  · unfold typeMappingGet at h ⊢
    split_ifs at h ⊢ with g1 g2 g3 g4 g5
    · decide
    · decide
    · decide
    · decide
    · decide
    · simp only [detectorSupported, List.mem_cons, List.not_mem_nil,
        or_false] at h
      rcases h with h | h | h | h | h | h | h | h | h
      · rw [h]; decide
      · rw [h]; decide
      · rw [h]; decide
      · rw [h]; decide
      · rw [h]; decide
      · rw [h]; decide
      · exact absurd h g1
      · exact absurd h g2
      · exact absurd h g3

/-- C6: the detector is total: for every input it returns a label in the
closed enumeration and a confidence in [0,1]; and whenever any of mean,
error bar or sample size is absent it returns exactly `(UNKNOWN, 0.0)` with
no further evaluation. -/
theorem detector_never_raises_range (mean error_bar : Option ℚ) (d : String)
    (n : Option ℤ) (s : ℚ) :
    ((detect_error_type mean error_bar d n s).1 ∈
        [tSD, tSE, tCI95, tCI99, t2SE, tASYMMETRIC, tUNKNOWN] ∧
      0 ≤ (detect_error_type mean error_bar d n s).2 ∧
      (detect_error_type mean error_bar d n s).2 ≤ 1) ∧
    ((mean = none ∨ error_bar = none ∨ n = none) →
      detect_error_type mean error_bar d n s = (tUNKNOWN, 0)) := by
  have hsix : ∀ x : String, x ∈ [tSD, tSE, tCI95, tCI99, t2SE, tASYMMETRIC] →
      x ∈ [tSD, tSE, tCI95, tCI99, t2SE, tASYMMETRIC, tUNKNOWN] := by
    intro x hx
    simp only [List.mem_cons, List.not_mem_nil, or_false] at hx ⊢
    tauto
  have hunk : (tUNKNOWN, (0:ℚ)).1 ∈
      [tSD, tSE, tCI95, tCI99, t2SE, tASYMMETRIC, tUNKNOWN] ∧
      (0:ℚ) ≤ (tUNKNOWN, (0:ℚ)).2 ∧ (tUNKNOWN, (0:ℚ)).2 ≤ 1 :=
    ⟨by decide, by norm_num⟩
  rcases mean with _ | m
  · exact ⟨hunk, fun _ => rfl⟩
  rcases error_bar with _ | e
  · exact ⟨hunk, fun _ => rfl⟩
  rcases n with _ | nn
  · exact ⟨hunk, fun _ => rfl⟩
  refine ⟨?_, ?_⟩
  · simp only [detect_error_type]
    split_ifs with hb1 hb2
    · exact ⟨hsix _ (normalize_recognized_mem d hb1.1),
        le_trans (by norm_num) (le_of_lt hb1.2),
        (validate_declared_range m e (normalize_type d) nn s).2⟩
    · exact ⟨hsix _ (normalize_recognized_mem d hb2.2), by norm_num, by norm_num⟩
    · obtain ⟨hm, hb0, hb1'⟩ := auto_detect_range m e nn s
      refine ⟨?_, hb0, hb1'⟩
      simp only [List.mem_cons, List.not_mem_nil, or_false] at hm ⊢
      tauto
  · rintro (h | h | h) <;> exact Option.noConfusion h

/-- Witness for C6: a missing mean yields `(UNKNOWN, 0.0)`. -/
theorem detector_never_raises_range_witness :
    detect_error_type none (some 1) tSD (some 10) 1 = (tUNKNOWN, 0) :=
  (detector_never_raises_range none (some 1) tSD (some 10) 1).2 (Or.inl rfl)
